import Mathlib

/-!
Shallow embedding of the lol_arena prediction services:
  - src/backend/data_collection/predict_service.py  (predict_single, predict_batch, its __main__)
  - src/backend/predict_service.py                  (load_model, predict_win, its __main__)
  - src/backend/data_collection/ml_model.py         (the trainer's label encoding y = placement - 1)

The trained XGBoost artifact is opaque to the services: it is modelled as an
abstract `Model` with a row-wise predict and predict_proba, carrying the
invariants any fitted softprob classifier guarantees (the predicted class index
lies below the class count, the probability row has one entry per class, the
entries are nonnegative and sum to 1).  Feature cells are `Option Rat`:
`none` stands for pandas NaN fill of a missing key, `some q` for a numeric
value.  Python floats are modelled as rationals.
-/

namespace LolArena

/-- A parsed JSON value, the shape `json.loads` hands to the services.
Objects are association lists with distinct keys (as parsed dicts have). -/
inductive Json where
  | null : Json
  | bool (b : Bool) : Json
  | num (q : Rat) : Json
  | str (s : String) : Json
  | arr (xs : List Json) : Json
  | obj (kvs : List (String × Json)) : Json

/-- Python dict lookup `d.get(k)`: `some v` when the key is present, else `none`. -/
def jlookup (kvs : List (String × Json)) (k : String) : Option Json :=
  match kvs with
  | [] => none
  | (k2, v) :: rest => if k2 = k then some v else jlookup rest k

/-- The feature list both services hard-code, in training order
(`features` in data_collection/predict_service.py, `FEATURES` in backend/predict_service.py). -/
def features : List String :=
  ["championId", "kills", "deaths", "assists", "totalDamageDealt", "totalDamageTaken", "goldEarned"]

/-- A JSON value as a numeric cell: only numbers are usable by the model. -/
def asNum : Json → Option Rat
  | .num q => some q
  | _ => none

/-- A DataFrame cell that inference accepts: absent (pandas fills NaN, which
XGBoost treats as missing) or numeric.  A present non-numeric value makes the
column dtype object and the underlying model call raise. -/
def cellOk : Option Json → Bool
  | none => true
  | some (.num _) => true
  | some _ => false

/-- Whether every feature cell a dict contributes to the DataFrame is
inference-acceptable (numeric or NaN-filled). -/
def rowAcceptable (kvs : List (String × Json)) : Bool :=
  (features.map fun f => jlookup kvs f).all cellOk

/-- The dicts of a parsed JSON array: `some` of them when every element is an
object, `none` when some element is not (pandas then raises on construction). -/
def objsOf : List Json → Option (List (List (String × Json)))
  | [] => some []
  | .obj kvs :: rest => (objsOf rest).map (kvs :: ·)
  | _ => none

/-- The numeric feature row a DataFrame built from a parsed dict carries:
one cell per feature in training order, `none` for a missing key. -/
def numRow (kvs : List (String × Json)) : List (Option Rat) :=
  features.map fun f => (jlookup kvs f).bind asNum

/-- The loaded model artifact, abstracted: row-wise predict and predict_proba
with the invariants a fitted multi-class (softprob) classifier guarantees. -/
structure Model where
  numClass : Nat
  predictRow : List (Option Rat) → Nat
  probaRow : List (Option Rat) → List Rat
  predict_lt : ∀ r, predictRow r < numClass
  proba_length : ∀ r, (probaRow r).length = numClass
  proba_nonneg : ∀ r, ∀ p ∈ probaRow r, 0 ≤ p
  proba_sum : ∀ r, (probaRow r).sum = 1

/-- One entry of the batch response: `{'matchId': ..., 'placement': ..., 'confidence': ...}`.
`matchId` is whatever `match.get('matchId')` returned; `none` is JSON null. -/
structure BatchItem where
  matchId : Option Json
  placement : Nat
  confidence : Rat

/-- One JSON document a service prints to stdout. -/
inductive Doc where
  | singleOk (placement : Nat) (confidence : Rat) : Doc
  | batchOk (results : List BatchItem) : Doc
  | errMissing (field : String) : Doc
  | errUnexpected : Doc
  | errInvalidJson : Doc
  | errModelNotFound : Doc
  | winOk (prediction : Nat) (winProbability : Rat) : Doc

/-- Whether a document is a success response (`success: true` or the win
variant's result document); the error documents all carry `success: false`
or, for the win variant, go to stderr. -/
def Doc.isSuccess : Doc → Bool
  | .singleOk _ _ => true
  | .batchOk _ => true
  | .winOk _ _ => true
  | _ => false

/-- Whether a document serves a prediction (as opposed to reporting an error). -/
def Doc.isPrediction : Doc → Bool := Doc.isSuccess

/-- The first feature key, in training order, missing from the input dict:
the comprehension `[input_data[f] for f in features]` raises KeyError there. -/
def firstMissing (kvs : List (String × Json)) : List String → Option String
  | [] => none
  | f :: fs => if (jlookup kvs f).isSome then firstMissing kvs fs else some f

/-- data_collection/predict_service.py `predict_single(input_data)`:
builds the row by subscripting `input_data[f]` for each feature (KeyError on a
missing key is caught and named), runs predict and predict_proba on the row,
reports placement `pred + 1` and confidence `probs[pred]`.  Non-dict input or a
present non-numeric feature value hits the generic exception handler. -/
def predict_single (m : Model) (input : Json) : Doc :=
  match input with
  | .obj kvs =>
    match firstMissing kvs features with
    | some f => .errMissing f
    | none =>
      let vals := numRow kvs
      if vals.all Option.isSome then
        let pred := m.predictRow vals
        .singleOk (pred + 1) ((m.probaRow vals).getD pred 0)
      else .errUnexpected
  | _ => .errUnexpected

/-- data_collection/predict_service.py `predict_batch(matches)`:
`pd.DataFrame(matches, columns=features)` over a list of dicts selects the
feature columns, filling a missing key with NaN (it raises no KeyError), then
`model.predict(X)` and `model.predict_proba(X)` run on the whole frame before
the loop, which builds
`{'matchId': match.get('matchId'), 'placement': int(preds[i]) + 1,
'confidence': probs[i][int(preds[i])]}` per row.  A non-list input, a non-dict
item or a present non-numeric value makes pandas or the model raise; and for
the empty list the whole-frame predict itself raises, because the 0-row frame's
columns all have object dtype, which the model's dtype validation rejects
before it looks at the row count.  Every such raise hits the generic handler:
the whole batch fails with the unexpected-error document. -/
def predict_batch (m : Model) (input : Json) : Doc :=
  match input with
  | .arr items =>
    match objsOf items with
    | none => .errUnexpected
    | some objs =>
      if !objs.isEmpty && objs.all rowAcceptable then
        .batchOk (objs.map fun kvs =>
          { matchId := jlookup kvs "matchId"
            placement := m.predictRow (numRow kvs) + 1
            confidence := (m.probaRow (numRow kvs)).getD (m.predictRow (numRow kvs)) 0 })
      else .errUnexpected
  | _ => .errUnexpected

/-- backend/predict_service.py `predict_win(model, data)` outcome: either the
result dict printed by main, or the fatal path (message to stderr, exit 1,
nothing on stdout). -/
inductive WinResult where
  | ok (prediction : Nat) (winProbability : Rat) : WinResult
  | fatal : WinResult

/-- backend/predict_service.py `predict_win(model, data)`:
`pd.DataFrame([data], columns=FEATURES)` NaN-fills missing keys of a dict (it
raises no KeyError), `win_probability = predict_proba(input_df)[0][1]` is the
class-1 probability regardless of the prediction, `prediction = predict(...)[0]`.
A JSON array of exactly seven numeric values also builds the one-row frame
(pandas takes it as the row); an array of any other length fails construction,
and a present non-numeric value (booleans are modelled as non-numeric, as in
`cellOk`) or any other payload shape makes construction or inference raise;
every handler prints to stderr and exits 1, nothing on stdout. -/
def predict_win (m : Model) (data : Json) : WinResult :=
  match data with
  | .obj kvs =>
    if rowAcceptable kvs then
      let row := numRow kvs
      let probs := m.probaRow row
      if 1 < probs.length then
        .ok (m.predictRow row) (probs.getD 1 0)
      else .fatal
    else .fatal
  | .arr xs =>
    if xs.length = features.length && xs.all (fun j => (asNum j).isSome) then
      let row := xs.map asNum
      let probs := m.probaRow row
      if 1 < probs.length then
        .ok (m.predictRow row) (probs.getD 1 0)
      else .fatal
    else .fatal
  | _ => .fatal

/-- What `joblib.load` of the artifact did at startup. -/
inductive LoadResult where
  | ok (m : Model) : LoadResult
  | fileNotFound : LoadResult
  | corrupt : LoadResult

/-- data_collection/predict_service.py `__main__` once the model is loaded:
stdin is read and parsed (`none` models a `json.JSONDecodeError`), then the
`--batch` flag picks the operation; every path prints exactly one document. -/
def dcMain (m : Model) (batchFlag : Bool) (parsed : Option Json) : List Doc :=
  match parsed with
  | none => [.errInvalidJson]
  | some j => [if batchFlag then predict_batch m j else predict_single m j]

/-- data_collection/predict_service.py whole-process behaviour
(stdout documents, exit code).  Module-level load: FileNotFoundError prints an
error document and exits 1; any other load failure is uncaught (traceback on
stderr, exit 1, nothing on stdout); otherwise main runs and exits 0. -/
def dcRun (lr : LoadResult) (batchFlag : Bool) (parsed : Option Json) : List Doc × Nat :=
  match lr with
  | .fileNotFound => ([.errModelNotFound], 1)
  | .corrupt => ([], 1)
  | .ok m => (dcMain m batchFlag parsed, 0)

/-- backend/predict_service.py whole-process behaviour (stdout documents, exit
code).  `arg = none`: no argv payload (usage to stderr, exit 1);
`arg = some none`: argv payload that is not valid JSON (stderr, exit 1);
`arg = some (some j)`: parsed payload, after which `load_model()` runs (any
load failure: stderr, exit 1) and then `predict_win`; only its ok outcome
prints a document to stdout. -/
def backendRun (lr : LoadResult) (arg : Option (Option Json)) : List Doc × Nat :=
  match arg with
  | none => ([], 1)
  | some none => ([], 1)
  | some (some j) =>
    match lr with
    | .ok m =>
      match predict_win m j with
      | .ok p w => ([.winOk p w], 0)
      | .fatal => ([], 1)
    | _ => ([], 1)

/-- ml_model.py: `y = data['placement'] - 1`, the trainer's multiclass label
encoding from raw placements 1..8 to zero-indexed classes 0..7. -/
def encodeLabel (placement : Int) : Int := placement - 1

/-- The display conversion the prediction service applies to the model's
zero-indexed output: `predicted_placement = pred + 1`
(data_collection/predict_service.py, both operations). -/
def decodeLabel (k : Int) : Int := k + 1

/-- An input mapping carrying a numeric value for every required feature key:
the well-formed single-prediction request of the spec. -/
def validInput (kvs : List (String × Json)) : Prop :=
  ∀ f ∈ features, ∃ q, jlookup kvs f = some (Json.num q)

/-- A concrete 8-class model (constant prediction, class index 2, with a
probability row concentrated on that class), used as an artifact instance. -/
def demoModel : Model where
  numClass := 8
  predictRow := fun _ => 2
  probaRow := fun _ => [1/10, 1/10, 3/10, 1/10, 1/10, 1/10, 1/10, 1/10]
  predict_lt := fun _ => by norm_num
  proba_length := fun _ => rfl
  proba_nonneg := fun _ p hp => by fin_cases hp <;> norm_num
  proba_sum := fun _ => by norm_num

/-- A concrete binary (2-class) win-predictor model that predicts class 0 with
probability row [7/10, 3/10]; the prediction is the argmax of the row. -/
def binModel : Model where
  numClass := 2
  predictRow := fun _ => 0
  probaRow := fun _ => [7/10, 3/10]
  predict_lt := fun _ => by norm_num
  proba_length := fun _ => rfl
  proba_nonneg := fun _ p hp => by fin_cases hp <;> norm_num
  proba_sum := fun _ => by norm_num

/-- A concrete request mapping carrying all seven features and a matchId. -/
def fullItem : List (String × Json) :=
  [("championId", .num 10), ("kills", .num 3), ("deaths", .num 2), ("assists", .num 5),
   ("totalDamageDealt", .num 1000), ("totalDamageTaken", .num 800), ("goldEarned", .num 6000),
   ("matchId", .str "NA1_1")]

/-- The same request mapping without the extra matchId key. -/
def bareItem : List (String × Json) :=
  [("championId", .num 10), ("kills", .num 3), ("deaths", .num 2), ("assists", .num 5),
   ("totalDamageDealt", .num 1000), ("totalDamageTaken", .num 800), ("goldEarned", .num 6000)]

/-- A request mapping with goldEarned omitted and the other six features numeric. -/
def missingGoldItem : List (String × Json) :=
  [("championId", .num 10), ("kills", .num 3), ("deaths", .num 2), ("assists", .num 5),
   ("totalDamageDealt", .num 1000), ("totalDamageTaken", .num 800), ("matchId", .str "NA1_2")]

lemma firstMissing_eq_none (kvs : List (String × Json)) (fs : List String)
    (h : ∀ f ∈ fs, (jlookup kvs f).isSome) : firstMissing kvs fs = none := by
  induction fs with
  | nil => rfl
  | cons f fs ih =>
    simp only [firstMissing, h f (List.mem_cons_self f fs), if_true]
    exact ih fun g hg => h g (List.mem_cons_of_mem f hg)

lemma numRow_all_isSome (kvs : List (String × Json)) (h : validInput kvs) :
    (numRow kvs).all Option.isSome = true := by
  rw [numRow, List.all_eq_true]
  intro x hx
  obtain ⟨f, hf, rfl⟩ := List.mem_map.mp hx
  obtain ⟨q, hq⟩ := h f hf
  simp [hq, asNum]

/-- On a valid input, `predict_single` succeeds, reporting placement
`pred + 1` and confidence `probs[pred]` for the input's numeric row. -/
lemma predict_single_valid (m : Model) (kvs : List (String × Json)) (h : validInput kvs) :
    predict_single m (.obj kvs) =
      .singleOk (m.predictRow (numRow kvs) + 1)
        ((m.probaRow (numRow kvs)).getD (m.predictRow (numRow kvs)) 0) := by
  have hnone : firstMissing kvs features = none := by
    refine firstMissing_eq_none kvs features fun f hf => ?_
    obtain ⟨q, hq⟩ := h f hf
    simp [hq]
  simp [predict_single, hnone, numRow_all_isSome kvs h]

lemma getD_nonneg_le_one (l : List Rat) (h0 : ∀ p ∈ l, 0 ≤ p) (hs : l.sum = 1)
    (i : Nat) (hi : i < l.length) : 0 ≤ l.getD i 0 ∧ l.getD i 0 ≤ 1 := by
  rw [List.getD_eq_getElem l 0 hi]
  have hmem : l[i] ∈ l := List.getElem_mem hi
  exact ⟨h0 _ hmem, hs ▸ List.single_le_sum h0 _ hmem⟩

lemma objsOf_map_obj (items : List (List (String × Json))) :
    objsOf (items.map Json.obj) = some items := by
  induction items with
  | nil => rfl
  | cons kvs rest ih => simp [objsOf, ih]

/-- On a nonempty list of mappings whose feature cells are all
inference-acceptable, `predict_batch` succeeds with one result per input
mapping, in order (the empty list instead errors on the whole-frame predict). -/
lemma predict_batch_valid (m : Model) (items : List (List (String × Json)))
    (hne : items ≠ []) (hv : items.all rowAcceptable = true) :
    predict_batch m (.arr (items.map Json.obj)) =
      .batchOk (items.map fun kvs =>
        { matchId := jlookup kvs "matchId"
          placement := m.predictRow (numRow kvs) + 1
          confidence := (m.probaRow (numRow kvs)).getD (m.predictRow (numRow kvs)) 0 }) := by
  rcases items with _ | ⟨kvs, rest⟩
  · exact absurd rfl hne
  · have h1 : objsOf (Json.obj kvs :: List.map Json.obj rest) = some (kvs :: rest) :=
      objsOf_map_obj (kvs :: rest)
    simp [predict_batch, h1, hv]

lemma firstMissing_congr (kvs1 kvs2 : List (String × Json)) (fs : List String)
    (h : ∀ f ∈ fs, jlookup kvs1 f = jlookup kvs2 f) :
    firstMissing kvs1 fs = firstMissing kvs2 fs := by
  induction fs with
  | nil => rfl
  | cons f fs ih =>
    simp only [firstMissing, h f (List.mem_cons_self f fs)]
    rcases hc : (jlookup kvs2 f).isSome with _ | _
    · simp [hc]
    · simp [hc, ih fun g hg => h g (List.mem_cons_of_mem f hg)]

lemma numRow_congr (kvs1 kvs2 : List (String × Json))
    (h : ∀ f ∈ features, jlookup kvs1 f = jlookup kvs2 f) :
    numRow kvs1 = numRow kvs2 :=
  List.map_congr_left fun f hf => by rw [h f hf]

/-- C1 (counterexample): on a concrete binary artifact that predicts class 0
with probability row [7/10, 3/10], `predict_win` on a fully numeric input
reports win_probability 3/10, the class-1 entry, while the probability of the
class it actually predicts is 7/10: the binary win-predictor variant does not
read the confidence at the raw internal index of its prediction. -/
theorem win_variant_confidence_cex :
    predict_win binModel (Json.obj fullItem) = WinResult.ok 0 (3/10) ∧
    (binModel.probaRow (numRow fullItem)).getD (binModel.predictRow (numRow fullItem)) 0
      = 7/10 ∧
    (3/10 : Rat) ≠ (7/10 : Rat) :=
  ⟨rfl, rfl, by norm_num⟩

/-- C1 (amended): in the data_collection service, both `predict_single` and
`predict_batch` (on the nonempty batches that produce results) report as
confidence the probability row read at the raw internal class index of the
prediction (never at the display-adjusted index); the binary win-predictor
variant `predict_win` instead always reports the probability at index 1 (the
win class), regardless of the class it predicts. -/
theorem confidence_raw_index :
    (∀ (m : Model) (kvs : List (String × Json)), validInput kvs →
      predict_single m (Json.obj kvs) =
        Doc.singleOk (m.predictRow (numRow kvs) + 1)
          ((m.probaRow (numRow kvs)).getD (m.predictRow (numRow kvs)) 0)) ∧
    (∀ (m : Model) (items : List (List (String × Json))), items ≠ [] →
      items.all rowAcceptable = true →
      predict_batch m (Json.arr (items.map Json.obj)) =
        Doc.batchOk (items.map fun kvs =>
          { matchId := jlookup kvs "matchId"
            placement := m.predictRow (numRow kvs) + 1
            confidence := (m.probaRow (numRow kvs)).getD (m.predictRow (numRow kvs)) 0 })) ∧
    (∀ (m : Model) (kvs : List (String × Json)) (p : Nat) (w : Rat),
      predict_win m (Json.obj kvs) = WinResult.ok p w →
      w = (m.probaRow (numRow kvs)).getD 1 0) := by
  refine ⟨predict_single_valid, predict_batch_valid, ?_⟩
  intro m kvs p w h
  by_cases hra : rowAcceptable kvs = true
  · by_cases hl : 1 < (m.probaRow (numRow kvs)).length
    · simp only [predict_win, hra, if_true, hl] at h
      exact (WinResult.ok.inj h).2.symm
    · simp [predict_win, hra, hl] at h
  · simp [predict_win, hra] at h

/-- C2: the trainer encodes the multiclass label as placement - 1 and the
service reports the model's zero-indexed output k as k + 1; for every internal
class k in 0..7 the reported placement is k + 1 and lies in 1..8, the display
conversion is the exact inverse of the trainer's encoding, and `predict_single`
indeed reports placement pred + 1 for the model's raw output pred. -/
theorem label_encoding_roundtrip :
    (∀ k : Int, 0 ≤ k → k ≤ 7 →
      decodeLabel k = k + 1 ∧ 1 ≤ decodeLabel k ∧ decodeLabel k ≤ 8 ∧
      encodeLabel (decodeLabel k) = k) ∧
    (∀ p : Int, decodeLabel (encodeLabel p) = p) ∧
    (∀ (m : Model) (kvs : List (String × Json)), validInput kvs →
      ∃ conf, predict_single m (Json.obj kvs) =
        Doc.singleOk (m.predictRow (numRow kvs) + 1) conf) := by
  refine ⟨fun k h0 h7 => ?_, fun p => ?_, fun m kvs h => ⟨_, predict_single_valid m kvs h⟩⟩
  · unfold decodeLabel encodeLabel; omega
  · unfold decodeLabel encodeLabel; omega

/-- C3: for every input mapping with numeric values for all seven required
feature keys, `predict_single` returns a success document whose confidence lies
in [0, 1] and whose placement lies in the declared label space 1..8 when the
loaded artifact has 8 classes. -/
theorem predict_single_bounds (m : Model) (kvs : List (String × Json)) (h : validInput kvs) :
    ∃ pl conf, predict_single m (Json.obj kvs) = Doc.singleOk pl conf ∧
      0 ≤ conf ∧ conf ≤ 1 ∧ (m.numClass = 8 → 1 ≤ pl ∧ pl ≤ 8) := by
  have hidx : m.predictRow (numRow kvs) < (m.probaRow (numRow kvs)).length := by
    rw [m.proba_length]; exact m.predict_lt _
  have hb := getD_nonneg_le_one (m.probaRow (numRow kvs)) (m.proba_nonneg _)
    (m.proba_sum _) (m.predictRow (numRow kvs)) hidx
  refine ⟨_, _, predict_single_valid m kvs h, hb.1, hb.2, fun h8 => ?_⟩
  have := m.predict_lt (numRow kvs)
  omega

/-- C3 witness: the bounds hold at the concrete 8-class model and a concrete
fully numeric request. -/
theorem predict_single_bounds_witness :
    ∃ pl conf, predict_single demoModel (Json.obj fullItem) = Doc.singleOk pl conf ∧
      0 ≤ conf ∧ conf ≤ 1 ∧ (demoModel.numClass = 8 → 1 ≤ pl ∧ pl ≤ 8) :=
  predict_single_bounds demoModel fullItem (by
    intro f hf
    simp only [features, List.mem_cons, List.not_mem_nil, or_false] at hf
    rcases hf with rfl | rfl | rfl | rfl | rfl | rfl | rfl <;> exact ⟨_, rfl⟩)

/-- C4: evaluation at the failing input.  On a batch whose single item omits
goldEarned, `predict_single` on that item reports the missing field, but
`predict_batch` silently fills the missing cell (pandas NaN) and returns a
successful prediction for it: batch does not apply the per-item validation. -/
theorem batch_missing_validation_bug :
    predict_single demoModel (Json.obj missingGoldItem) = Doc.errMissing "goldEarned" ∧
    predict_batch demoModel (Json.arr [Json.obj missingGoldItem]) =
      Doc.batchOk [⟨some (Json.str "NA1_2"), 3, 3/10⟩] ∧
    (predict_batch demoModel (Json.arr [Json.obj missingGoldItem])).isSuccess = true :=
  ⟨rfl, rfl, rfl⟩

/-- C5: evaluation at the failing input.  For the empty input sequence the
whole-frame predict raises (the 0-row frame's columns all carry object dtype,
rejected by the model's dtype validation before the row count is seen), so
`predict_batch` prints the unexpected-error document with success:false — not
the empty success response the spec requires. -/
theorem batch_empty_error (m : Model) :
    predict_batch m (Json.arr []) = Doc.errUnexpected ∧
    (predict_batch m (Json.arr [])).isSuccess = false :=
  ⟨rfl, rfl⟩

/-- C6: on every nonempty batch of acceptable feature-vector items, the
results sequence has the same length and order as the input, and each result's
matchId is the corresponding input item's matchId (none, i.e. JSON null, when
absent).  The nonempty hypothesis is needed: the empty batch errors on the
whole-frame predict instead of returning results. -/
theorem batch_order_matchId (m : Model) (items : List (List (String × Json)))
    (hne : items ≠ []) (hv : items.all rowAcceptable = true) :
    ∃ results, predict_batch m (Json.arr (items.map Json.obj)) = Doc.batchOk results ∧
      results.length = items.length ∧
      results.map BatchItem.matchId = items.map fun kvs => jlookup kvs "matchId" := by
  refine ⟨_, predict_batch_valid m items hne hv, List.length_map items _, ?_⟩
  rw [List.map_map]
  rfl

/-- C6 witness: order and matchId preservation at a concrete two-item batch,
one item carrying a matchId key and the other one carrying none. -/
theorem batch_order_matchId_witness :
    ∃ results, predict_batch demoModel
        (Json.arr (([fullItem, bareItem]).map Json.obj)) = Doc.batchOk results ∧
      results.length = ([fullItem, bareItem]).length ∧
      results.map BatchItem.matchId = ([fullItem, bareItem]).map fun kvs => jlookup kvs "matchId" :=
  batch_order_matchId demoModel [fullItem, bareItem] (List.cons_ne_nil fullItem [bareItem]) rfl

/-- C7 (counterexample): the binary win-predictor variant, handed a mapping
with goldEarned omitted, does not return a success-false document naming the
field: it NaN-fills the missing feature, serves a prediction, and the process
exits 0 having printed a success document. -/
theorem missing_key_win_variant_cex :
    predict_win binModel (Json.obj missingGoldItem) = WinResult.ok 0 (3/10) ∧
    backendRun (LoadResult.ok binModel) (some (some (Json.obj missingGoldItem))) =
      ([Doc.winOk 0 (3/10)], 0) :=
  ⟨rfl, rfl⟩

/-- C7 (amended): the data_collection `predict_single` returns a success-false
document naming the first missing required feature key and never raises an
unhandled fault; the binary win-predictor variant instead fills missing keys
with NaN and proceeds to serve a prediction whenever the remaining feature
values are numeric and the artifact has at least two classes. -/
theorem missing_key_handling :
    (∀ (m : Model) (kvs : List (String × Json)) (f : String),
      firstMissing kvs features = some f →
      predict_single m (Json.obj kvs) = Doc.errMissing f ∧
      (Doc.errMissing f).isSuccess = false) ∧
    (∀ (m : Model) (kvs : List (String × Json)),
      rowAcceptable kvs = true → 2 ≤ m.numClass →
      predict_win m (Json.obj kvs) =
        WinResult.ok (m.predictRow (numRow kvs)) ((m.probaRow (numRow kvs)).getD 1 0)) := by
  constructor
  · intro m kvs f hf
    exact ⟨by simp [predict_single, hf], rfl⟩
  · intro m kvs hra h2
    have hl : 1 < (m.probaRow (numRow kvs)).length := by rw [m.proba_length]; omega
    simp [predict_win, hra, hl]

/-- C8 (counterexample): for the parseable payload 5 (valid JSON, not a
mapping), the backend variant writes no document at all to stdout: it reports
on stderr and exits 1, so the caller does not always receive a JSON document. -/
theorem stdout_document_cex :
    backendRun (LoadResult.ok binModel) (some (some (Json.num 5))) = ([], 1) ∧
    (backendRun (LoadResult.ok binModel) (some (some (Json.num 5)))).1.length ≠ 1 :=
  ⟨rfl, by simp [backendRun, predict_win]⟩

/-- C8 (amended): the data_collection service writes exactly one JSON document
to stdout for every invocation once the model is loaded, parseable payload or
not; the backend win-predictor variant writes one document exactly when it
exits 0, and writes nothing to stdout whenever it exits nonzero. -/
theorem one_document_amended :
    (∀ (m : Model) (flag : Bool) (parsed : Option Json),
      (dcMain m flag parsed).length = 1) ∧
    (∀ (lr : LoadResult) (arg : Option (Option Json)),
      ((backendRun lr arg).2 = 0 → (backendRun lr arg).1.length = 1) ∧
      ((backendRun lr arg).2 ≠ 0 → (backendRun lr arg).1 = [])) := by
  constructor
  · intro m flag parsed
    cases parsed <;> rfl
  · intro lr arg
    rcases arg with _ | arg
    · exact ⟨fun h => absurd h (by simp [backendRun]), fun _ => rfl⟩
    rcases arg with _ | j
    · exact ⟨fun h => absurd h (by simp [backendRun]), fun _ => rfl⟩
    rcases lr with m | _ | _
    · rcases hw : predict_win m j with ⟨p, w⟩ | _
      · exact ⟨fun _ => by simp [backendRun, hw],
          fun hne => absurd (by simp [backendRun, hw]) hne⟩
      · exact ⟨fun h => absurd h (by simp [backendRun, hw]),
          fun _ => by simp [backendRun, hw]⟩
    · exact ⟨fun h => absurd h (by simp [backendRun]), fun _ => rfl⟩
    · exact ⟨fun h => absurd h (by simp [backendRun]), fun _ => rfl⟩

/-- C9: when the artifact fails to load (file missing or corrupt), both
service variants exit nonzero and serve no prediction document, whatever the
request was. -/
theorem artifact_load_failure (lr : LoadResult) (h : ∀ m, lr ≠ LoadResult.ok m)
    (flag : Bool) (parsed : Option Json) (arg : Option (Option Json)) :
    (dcRun lr flag parsed).2 ≠ 0 ∧
    (∀ d ∈ (dcRun lr flag parsed).1, d.isPrediction = false) ∧
    (backendRun lr arg).2 ≠ 0 ∧ (backendRun lr arg).1 = [] := by
  have hb : (backendRun lr arg).2 ≠ 0 ∧ (backendRun lr arg).1 = [] := by
    rcases arg with _ | arg
    · exact ⟨by simp [backendRun], rfl⟩
    rcases arg with _ | j
    · exact ⟨by simp [backendRun], rfl⟩
    rcases lr with m | _ | _
    · exact absurd rfl (h m)
    · exact ⟨by simp [backendRun], rfl⟩
    · exact ⟨by simp [backendRun], rfl⟩
  rcases lr with m | _ | _
  · exact absurd rfl (h m)
  · refine ⟨by simp [dcRun], ?_, hb⟩
    intro d hd
    simp only [dcRun, List.mem_singleton] at hd
    subst hd
    rfl
  · refine ⟨by simp [dcRun], ?_, hb⟩
    intro d hd
    simp [dcRun] at hd

/-- C9 witness: the load-failure guarantees at the concrete missing-file case
with no parsed request. -/
theorem artifact_load_failure_witness :
    (dcRun LoadResult.fileNotFound false none).2 ≠ 0 ∧
    (∀ d ∈ (dcRun LoadResult.fileNotFound false none).1, d.isPrediction = false) ∧
    (backendRun LoadResult.fileNotFound none).2 ≠ 0 ∧
    (backendRun LoadResult.fileNotFound none).1 = [] :=
  artifact_load_failure LoadResult.fileNotFound
    (fun _ h => LoadResult.noConfusion h) false none none

/-- C10: the output of `predict_single` is a function of the seven required
feature values alone: two input mappings that agree on every required feature
key produce identical outputs, whatever other keys either carries. -/
theorem single_output_feature_determined (m : Model) (kvs1 kvs2 : List (String × Json))
    (h : ∀ f ∈ features, jlookup kvs1 f = jlookup kvs2 f) :
    predict_single m (Json.obj kvs1) = predict_single m (Json.obj kvs2) := by
  have h1 := firstMissing_congr kvs1 kvs2 features h
  have h2 := numRow_congr kvs1 kvs2 h
  simp only [predict_single, h1, h2]

/-- C10 witness: the same request with and without an extra matchId key gets
the same output from the concrete 8-class model. -/
theorem single_output_feature_determined_witness :
    predict_single demoModel (Json.obj fullItem) = predict_single demoModel (Json.obj bareItem) :=
  single_output_feature_determined demoModel fullItem bareItem (by
    intro f hf
    simp only [features, List.mem_cons, List.not_mem_nil, or_false] at hf
    rcases hf with rfl | rfl | rfl | rfl | rfl | rfl | rfl <;> rfl)

end LolArena
